import Mathlib

/-!
Verification development for the `trusted_ai_soc_lite` pipeline
(`src/trusted_ai_soc_lite`): feature extraction, baseline persistence,
statistical anomaly scoring, explainability, alert building, audit
logging and the automated response gate.

Modelling conventions, used uniformly below:
* Python `float` values are modelled as `ℚ` (all arithmetic appearing in
  the analysed code is field arithmetic, exact over the rationals, except
  for `statistics.pstdev`, whose square root is kept as an explicit
  function parameter `sqrtFn`).
* `datetime` values are modelled as opaque ticks of type `ℕ`; the code
  never inspects their content.
* A file on disk is modelled by an `Option` (absent / present); a fallible
  Python computation is modelled by `Except String` whose error string
  names the exception the code would raise.
-/

set_option autoImplicit false

/-- One host/port/protocol observation, from `data_models.PortFinding`. -/
structure PortFinding where
  host : String
  protocol : String
  port : Int
  service : String
  product : Option String
  cve : List String
  deriving DecidableEq, Repr

/-- A scan observation, from `data_models.ScanObservation`; the timestamp is an
opaque tick. -/
structure ScanObservation where
  timestamp : Nat
  scanner : String
  findings : List PortFinding
  deriving DecidableEq, Repr

/-- Feature vector with named dimensions, from `ai.engine.FeatureVector`. -/
structure FeatureVector where
  values : List ℚ
  featureNames : List String
  deriving DecidableEq, Repr

/-- One explainability insight, from `data_models.AnomalyInsight`. -/
structure AnomalyInsight where
  feature : String
  contribution : ℚ
  description : String
  deriving DecidableEq, Repr

/-- Result of one analysis, from `data_models.AnalysisResult`. -/
structure AnalysisResult where
  observation : ScanObservation
  riskScore : ℚ
  anomalyFlag : Bool
  anomalyReason : String
  insights : List AnomalyInsight
  deriving DecidableEq, Repr

/-- A persisted alert, from `data_models.AlertRecord`. -/
structure AlertRecord where
  id : String
  generatedAt : Nat
  severity : String
  title : String
  description : String
  relatedIp : Option String
  recommendedAction : Option String
  analysis : AnalysisResult
  deriving DecidableEq, Repr

/-- One audit record, from `data_models.AuditEntry`; the context dict is an
association list. -/
structure AuditEntry where
  timestamp : Nat
  actor : String
  action : String
  context : List (String × String)
  deriving DecidableEq, Repr

/-- Decidable equality for `Except`, needed to evaluate the embedded
fallible computations inside closed proofs. -/
instance {e a : Type} [DecidableEq e] [DecidableEq a] : DecidableEq (Except e a) := fun x y =>
  match x, y with
  | .ok u, .ok v =>
      if h : u = v then isTrue (by rw [h]) else isFalse (by simp [h])
  | .error u, .error v =>
      if h : u = v then isTrue (by rw [h]) else isFalse (by simp [h])
  | .ok _, .error _ => isFalse (by simp)
  | .error _, .ok _ => isFalse (by simp)

/-- Python truthiness of an optional string: `None` and the empty string are
falsy (`if not alert.related_ip`). -/
def pyTruthyStr : Option String → Bool
  | none => false
  | some s => ! s.isEmpty

/-- Python truthiness of an optional list (`if baseline_mean:` in
`_heuristic_risk`): `None` and the empty list are falsy. -/
def pyTruthyList {α : Type} : Option (List α) → Bool
  | none => false
  | some [] => false
  | some (_ :: _) => true

/-- The fixed critical-port set from `ai.engine._extract_features`. -/
def criticalPorts : List Int := [22, 80, 443, 3389, 3306]

/-- The fixed feature-name list produced by `ai.engine._extract_features`. -/
def fixedFeatureNames : List String :=
  ["total_ports", "unique_services", "high_risk", "open_critical_ports", "average_port"]

/-- `ai.engine._extract_features`: counts findings, distinct services, findings
with a non-empty CVE list, findings on a critical port, and the average port
(0.0 when there are no findings). The `counts_by_service` dict is used only for
its number of keys, i.e. the number of distinct service names. -/
def extractFeatures (observation : ScanObservation) : FeatureVector :=
  let totalPorts : ℕ := observation.findings.length
  let uniqueServices : ℕ := (observation.findings.map (·.service)).dedup.length
  let highRisk : ℕ := (observation.findings.filter (fun f => ! f.cve.isEmpty)).length
  let openCriticalPorts : ℕ :=
    (observation.findings.filter (fun f => f.port ∈ criticalPorts)).length
  let avgPort : ℚ :=
    if totalPorts = 0 then 0
    else ((observation.findings.map (fun f => (f.port : ℚ))).sum) / (totalPorts : ℚ)
  { values := [(totalPorts : ℚ), (uniqueServices : ℚ), (highRisk : ℚ),
               (openCriticalPorts : ℚ), avgPort],
    featureNames := fixedFeatureNames }

/-- The parsed content of `model_state.json`, i.e. the dict `json.load` yields;
each field is optional because `_load_historical_features` reads it with
`payload.get(key, [])`. -/
structure BaselinePayload where
  vectors : Option (List (List ℚ))
  featureNames : Option (List String)
  deriving DecidableEq, Repr

/-- The state of the baseline file: `none` is a missing file; `some (.error ())`
is a file that is present but whose open or `json.load` raises (unreadable or
corrupt); `some (.ok p)` is a readable file parsing to payload `p`. -/
abbrev BaselineFile : Type := Option (Except Unit BaselinePayload)

/-- `ai.engine._load_historical_features`: a missing file yields
`([], [])`; otherwise the payload is parsed by `json.load` with no
try/except around it, so a corrupt or unreadable file propagates the
exception. -/
def loadHistoricalFeatures (file : BaselineFile) :
    Except String (List (List ℚ) × List String) :=
  match file with
  | none => .ok ([], [])
  | some (.error _) => .error "json.JSONDecodeError"
  | some (.ok payload) => .ok (payload.vectors.getD [], payload.featureNames.getD [])

/-- `ai.engine._save_historical_features`: overwrites the state file with the
full vector history and the feature names. -/
def saveHistoricalFeatures (vectors : List (List ℚ)) (featureNames : List String) :
    BaselineFile :=
  some (.ok { vectors := some vectors, featureNames := some featureNames })

/-- `statistics.mean` over the rationals (callers only apply it to non-empty
columns). -/
def listMean (xs : List ℚ) : ℚ := xs.sum / (xs.length : ℚ)

/-- Population variance, so that `statistics.pstdev xs = sqrt (pvarianceQ xs)`. -/
def pvarianceQ (xs : List ℚ) : ℚ :=
  (xs.map (fun x => (x - listMean xs) ^ 2)).sum / (xs.length : ℚ)

/-- Python `zip(*vectors)`: the list of columns, truncated to the shortest
row, as used by `_compute_baseline_stats`. -/
def pyZipStar (rows : List (List ℚ)) : List (List ℚ) :=
  match rows with
  | [] => []
  | r :: rs =>
      (List.range (rs.foldl (fun m l => min m l.length) r.length)).map
        (fun i => (r :: rs).map (fun row => row.getD i 0))

/-- `ai.engine._compute_baseline_stats`: per-column mean and population
standard deviation (`0.0` for a column with a single sample).  The square
root inside `statistics.pstdev` is the parameter `sqrtFn`. -/
def computeBaselineStats (sqrtFn : ℚ → ℚ) (vectors : List (List ℚ)) :
    List ℚ × List ℚ :=
  let transposed := pyZipStar vectors
  (transposed.map listMean,
   transposed.map (fun column =>
     if 1 < column.length then sqrtFn (pvarianceQ column) else 0))

/-- One per-dimension z-score as computed inside `ai.engine._avg_z_score`:
`0.0` when the standard deviation is zero, `|value - mu| / sigma` otherwise. -/
def zScoreOf (value mu sigma : ℚ) : ℚ :=
  if sigma = 0 then 0 else |value - mu| / sigma

/-- The z-score list built by the loop of `ai.engine._avg_z_score`
(`zip` truncates to the shortest of the three lists). -/
def zScores (values means deviations : List ℚ) : List ℚ :=
  (values.zip (means.zip deviations)).map (fun p => zScoreOf p.1 p.2.1 p.2.2)

/-- `ai.engine._avg_z_score`: `0.0` for an empty value list or an empty z-score
list, otherwise the arithmetic mean of the per-dimension z-scores. -/
def avgZScore (values means deviations : List ℚ) : ℚ :=
  if values = [] then 0
  else
    let zs := zScores values means deviations
    if zs = [] then 0 else zs.sum / (zs.length : ℚ)

/-- `ai.engine._heuristic_risk`.  The five feature values are unpacked by a
tuple assignment, which raises `ValueError` unless exactly five values are
given; `if baseline_mean:` uses Python truthiness, so both `None` and an
empty mean list skip the drift term; the final score is clamped to
`[0, 10]`. -/
def heuristicRisk (values : List ℚ) (baselineMean : Option (List ℚ)) (zScore : ℚ) :
    Except String ℚ :=
  match values with
  | [totalPorts, _uniqueServices, highRisk, openCriticalPorts, avgPort] =>
      let base := highRisk * 2.5 + openCriticalPorts * 1.5 + totalPorts * 0.25
      let base := base + max 0 ((avgPort - 1024) / 200)
      let base :=
        if pyTruthyList baselineMean then
          let bm := baselineMean.getD []
          let drift := ((values.zip bm).map (fun p => |p.1 - p.2|)).sum / (values.length : ℚ)
          base + min 4 (drift * 0.5)
        else base
      let base := base + min 4 (zScore * 1.5)
      .ok (max 0 (min 10 base))
  | _ => .error "ValueError: unpack"

/-- `ai.xai.build_insights(model, feature_vector)`.  Its body begins with
`feature_vector.values.reshape(1, -1)` (outside any try/except); at its only
call site, `ai.engine.analyze_scan` line 144, the `feature_vector` argument
is `baseline_means`, which is either `None` or a plain list of floats.
Neither has a `.values` attribute, so the call raises `AttributeError`
unconditionally.  The first parameter (named `model` in the source, but fed
the `FeatureVector` by the engine) is never reached. -/
def buildInsights (_model : FeatureVector) (_featureVectorArg : Option (List ℚ)) :
    Except String (List AnomalyInsight) :=
  .error "AttributeError: object has no attribute values"

/-- The anomaly flag of the warm branch of `ai.engine.analyze_scan`
(line 132): `z_score > 2.5`. -/
def warmAnomalyFlag (zScore : ℚ) : Bool := decide (zScore > 2.5)

/-- The reason string of the cold-start branch of `ai.engine.analyze_scan`
(line 126). -/
def coldStartReason : String := "Baseline established from first observation"

/-- The reason string of the warm branch when the anomaly flag is set
(`ai.engine.analyze_scan` line 133). -/
def anomalousReason : String := "Deviation from historical baseline detected"

/-- The reason string of the warm branch when the anomaly flag is clear
(`ai.engine.analyze_scan` line 133). -/
def withinBaselineReason : String := "Within learned baseline"

/-- `ai.engine.analyze_scan`, as a function of the current baseline file,
returning the new baseline file together with the result of the call.
Steps, in source order: extract features; load history (a corrupt file
propagates the `json.load` exception before anything is written); cold or
warm branch computing flag, z-score, reason and the new history; save the
new history with the extractor's current feature names (line 136 — the
loaded `feature_names`, and its `if not feature_names` reassignment on
line 129, are dead for persistence); compute the heuristic risk; build the
insights (which raises, see `buildInsights`); assemble the result. -/
def analyzeScan (sqrtFn : ℚ → ℚ) (observation : ScanObservation)
    (file : BaselineFile) : BaselineFile × Except String AnalysisResult :=
  let fv := extractFeatures observation
  match loadHistoricalFeatures file with
  | .error e => (file, .error e)
  | .ok (historicalVectors, _featureNames) =>
      let st :=
        if historicalVectors = [] then
          (([fv.values] : List (List ℚ)), (0 : ℚ), false, coldStartReason,
           (none : Option (List ℚ)))
        else
          let stats := computeBaselineStats sqrtFn historicalVectors
          let z := avgZScore fv.values stats.1 stats.2
          let flag := warmAnomalyFlag z
          (historicalVectors ++ [fv.values], z, flag,
           if flag then anomalousReason else withinBaselineReason,
           some stats.1)
      let newFile := saveHistoricalFeatures st.1 fv.featureNames
      match heuristicRisk fv.values st.2.2.2.2 st.2.1 with
      | .error e => (newFile, .error e)
      | .ok risk =>
          match buildInsights fv st.2.2.2.2 with
          | .error e => (newFile, .error e)
          | .ok insights =>
              (newFile,
               .ok { observation := observation, riskScore := risk,
                     anomalyFlag := st.2.2.1, anomalyReason := st.2.2.2.1,
                     insights := insights })

/-- `pipeline._severity_from_score`. -/
def severityFromScore (score : ℚ) : String :=
  if score ≥ 7 then "critical"
  else if score ≥ 5 then "high"
  else if score ≥ 3 then "medium"
  else "low"

/-- Python `str.title()` applied to the four severity words, as used in the
alert title f-string. -/
def titleCase (severity : String) : String :=
  if severity = "critical" then "Critical"
  else if severity = "high" then "High"
  else if severity = "medium" then "Medium"
  else if severity = "low" then "Low"
  else severity

/-- `pipeline._build_alert`; the fresh uuid and the `datetime.utcnow()` tick
are supplied by the caller. -/
def buildAlert (uuid : String) (now : Nat) (analysis : AnalysisResult) : AlertRecord :=
  let severity := severityFromScore analysis.riskScore
  let relatedIp :=
    match analysis.observation.findings with
    | [] => none
    | f :: _ => some f.host
  { id := uuid, generatedAt := now, severity := severity,
    title := titleCase severity ++ " risk exposure detected",
    description := analysis.anomalyReason,
    relatedIp := relatedIp,
    recommendedAction := some "Review automated response and validate mitigation",
    analysis := analysis }

/-- One line of `audit_log.jsonl` as `load_audit_entries` classifies it:
a line that strips to the empty string, a line whose `AuditEntry.from_json`
raises (invalid JSON, wrong shape, or a bad timestamp string), or a line
that parses to an entry.  `append_audit_entry` only ever writes lines of the
third kind (`entry.to_json()` followed by a newline). -/
inductive AuditLine where
  | blank : AuditLine
  | junk : AuditLine
  | entry : AuditEntry → AuditLine
  deriving DecidableEq, Repr

/-- The audit log file: `none` when the file does not exist, otherwise its
list of lines. -/
abbrev AuditFile : Type := Option (List AuditLine)

/-- `audit.logger.append_audit_entry`: creates the file if needed and appends
one serialized entry after the existing lines; prior lines are untouched. -/
def appendAuditEntry (file : AuditFile) (entry : AuditEntry) : AuditFile :=
  some ((file.getD []) ++ [AuditLine.entry entry])

/-- The parse step of `load_audit_entries`: `AuditEntry.from_json` inside
`try/except`, yielding `none` for a line it cannot parse. -/
def parseAuditLine : AuditLine → Option AuditEntry
  | .entry e => some e
  | _ => none

/-- The `if limit:` slice of `load_audit_entries`: Python truthiness means
`None` and `0` take the whole list, otherwise the last `limit` lines are
kept. -/
def applyAuditLimit (limit : Option ℕ) (lines : List AuditLine) : List AuditLine :=
  match limit with
  | none => lines
  | some 0 => lines
  | some k => lines.drop (lines.length - k)

/-- `audit.logger.load_audit_entries`: a missing file yields `[]`; otherwise
every line is handled independently — blank lines are skipped by the
`if not line: continue` guard and unparsable lines by the
`try/except: continue`, so one bad line never fails the read. -/
def loadAuditEntries (limit : Option ℕ) (file : AuditFile) : List AuditEntry :=
  match file with
  | none => []
  | some lines => (applyAuditLimit limit lines).filterMap parseAuditLine

/-- State touched by the response actions: the ledger of snapshot files
written under `responses/` (name and payload) and the audit log. -/
structure RespState where
  snapshots : List (String × List (String × String))
  audit : AuditFile

/-- `responder.actions._write_action_snapshot`: writes
`responses/<alert-id>_<action>.json`. -/
def writeActionSnapshot (alert : AlertRecord) (action : String)
    (payload : List (String × String)) (st : RespState) : RespState :=
  { st with snapshots := st.snapshots ++ [(alert.id ++ "_" ++ action ++ ".json", payload)] }

/-- `responder.actions.block_ip`: a no-op when the alert has no (falsy)
related IP, otherwise one snapshot plus one audit entry with actor
`automation` and action `block_ip`. -/
def blockIp (now : Nat) (alert : AlertRecord) (st : RespState) : RespState :=
  if pyTruthyStr alert.relatedIp then
    let ip := alert.relatedIp.getD ""
    let st := writeActionSnapshot alert "block"
      [("timestamp", toString now), ("action", "block_ip"), ("ip", ip)] st
    let entry : AuditEntry :=
      { timestamp := now, actor := "automation", action := "block_ip",
        context := [("ip", ip), ("alert_id", alert.id)] }
    { st with audit := appendAuditEntry st.audit entry }
  else st

/-- `responder.actions.send_email`: one snapshot plus one audit entry with
actor `automation` and action `send_email`. -/
def sendEmail (now : Nat) (alert : AlertRecord) (st : RespState) : RespState :=
  let st := writeActionSnapshot alert "email"
    [("timestamp", toString now), ("action", "send_email"),
     ("subject", alert.title), ("severity", alert.severity)] st
  let entry : AuditEntry :=
    { timestamp := now, actor := "automation", action := "send_email",
      context := [("alert_id", alert.id), ("subject", alert.title)] }
  { st with audit := appendAuditEntry st.audit entry }

/-- `responder.actions.create_ticket`: one snapshot plus one audit entry with
actor `automation` and action `create_ticket`. -/
def createTicket (now : Nat) (alert : AlertRecord) (st : RespState) : RespState :=
  let st := writeActionSnapshot alert "ticket"
    [("timestamp", toString now), ("action", "create_ticket"), ("title", alert.title)] st
  let entry : AuditEntry :=
    { timestamp := now, actor := "automation", action := "create_ticket",
      context := [("alert_id", alert.id), ("title", alert.title)] }
  { st with audit := appendAuditEntry st.audit entry }

/-- The trigger condition of the response gate
(`pipeline.run_pipeline_cycle` line 63). -/
def responseTriggered (alert : AlertRecord) : Bool :=
  alert.severity = "medium" ∨ alert.severity = "high" ∨ alert.severity = "critical"

/-- The response gate of `pipeline.run_pipeline_cycle` (lines 62-66):
for medium/high/critical severity, invoke block-IP, send-email and
create-ticket in that order; otherwise do nothing. -/
def responseGate (now : Nat) (alert : AlertRecord) (st : RespState) : RespState :=
  if responseTriggered alert then
    createTicket now alert (sendEmail now alert (blockIp now alert st))
  else st

/-- The actions appended to an audit log segment by automation: the action
names of its entries whose actor is `automation`. -/
def automationActions (lines : List AuditLine) : List String :=
  lines.filterMap (fun line =>
    match line with
    | .entry e => if e.actor = "automation" then some e.action else none
    | _ => none)

/-- The attribute lookup `alert.json` performed by
`pipeline.run_pipeline_cycle` line 51.  `AlertRecord` is a dataclass whose
only methods come from the `Serializable` mixin — `to_dict`, `to_json`,
`from_json`, `from_dict` — and none of its fields is named `json`, so the
lookup raises `AttributeError` for every alert. -/
def alertJsonMethod (_alert : AlertRecord) : Except String String :=
  .error "AttributeError: AlertRecord object has no attribute json"

/-- State touched by the tail of `run_pipeline_cycle`: the alert files
written under `alerts/`, the audit log, and the response snapshots. -/
structure PipelineFiles where
  alertFiles : List (String × String)
  audit : AuditFile
  snapshots : List (String × List (String × String))

/-- `pipeline.run_pipeline_cycle` from the point where the alert has been
built (lines 48-68): serialize the alert via the `alert.json(indent=2)`
attribute lookup and write it to `alerts/<alert-id>.json`, append the
generation audit entry (actor `ai_engine`), then run the response gate; any
exception aborts the cycle, leaving the state as it was.  Since
`alertJsonMethod` always raises, every run aborts at the write. -/
def pipelineAfterAnalysis (now : Nat) (alert : AlertRecord) (files : PipelineFiles) :
    Except String (PipelineFiles × AlertRecord) :=
  match alertJsonMethod alert with
  | .error e => .error e
  | .ok text =>
      let files := { files with
        alertFiles := files.alertFiles ++ [(alert.id ++ ".json", text)] }
      let genEntry : AuditEntry :=
        { timestamp := now, actor := "ai_engine", action := "generated_alert",
          context := [("alert_id", alert.id), ("severity", alert.severity)] }
      let files := { files with audit := appendAuditEntry files.audit genEntry }
      let rs := responseGate now alert { snapshots := files.snapshots, audit := files.audit }
      .ok ({ files with snapshots := rs.snapshots, audit := rs.audit }, alert)

/-!  Concrete inputs used by the evaluation theorems and witnesses: the
scenario of the spec, one finding `host 10.0.0.5, port 22, service ssh`
with one CVE. -/

/-- The concrete scan observation of the spec scenario. -/
def scenarioObservation : ScanObservation :=
  { timestamp := 0, scanner := "nmap",
    findings := [{ host := "10.0.0.5", protocol := "tcp", port := 22,
                   service := "ssh", product := none,
                   cve := ["CVE-2023-38408"] }] }

/-- An analysis result as the engine would assemble for the scenario
(risk 4.25, no anomaly), used to build a concrete alert. -/
def scenarioAnalysis : AnalysisResult :=
  { observation := scenarioObservation, riskScore := 17 / 4,
    anomalyFlag := false, anomalyReason := withinBaselineReason, insights := [] }

/-- The alert built from the scenario analysis (medium severity, related IP
`10.0.0.5`). -/
def scenarioAlert : AlertRecord := buildAlert "alert-1" 0 scenarioAnalysis

/-- An empty pipeline file state. -/
def emptyPipelineFiles : PipelineFiles :=
  { alertFiles := [], audit := none, snapshots := [] }

/-- C1: the claim says `explain` returns one insight per dimension with
contribution `current - baseline mean` (baseline present) or
`|value| / sum |values|` (cold start), sorted by descending absolute
contribution.  The code cannot do any of this: at its only call site the
argument bound to `feature_vector` is `baseline_means` (a float list or
`None`), and `build_insights` immediately evaluates
`feature_vector.values.reshape(1, -1)` outside any try/except, so the call
raises `AttributeError` both with and without a baseline. -/
theorem c1_build_insights_raises :
    buildInsights (extractFeatures scenarioObservation) none
      = .error "AttributeError: object has no attribute values" ∧
    buildInsights (extractFeatures scenarioObservation) (some [1, 1, 1, 1, 22])
      = .error "AttributeError: object has no attribute values" :=
  ⟨rfl, rfl⟩

/-- C2: the claim says every cycle reaching the alert-building step persists
the alert at `alerts/<alert-id>.json` before the generation audit entry and
the response actions.  The code serializes the alert with
`alert.json(indent=2)`, but `AlertRecord` has no `json` attribute (the
`Serializable` mixin only provides `to_json`), so the cycle raises before
writing anything: no alert file, no audit entry, no response runs. -/
theorem c2_alert_persist_raises :
    pipelineAfterAnalysis 0 scenarioAlert emptyPipelineFiles
      = .error "AttributeError: AlertRecord object has no attribute json" ∧
    alertJsonMethod scenarioAlert
      = .error "AttributeError: AlertRecord object has no attribute json" :=
  ⟨rfl, rfl⟩

/-- C3 counterexample: a corrupt (present but unparsable) baseline file is
not treated as cold start — `_load_historical_features` has no handler
around `json.load`, so the exception propagates instead of yielding the
empty history. -/
theorem c3_corrupt_baseline_not_cold_start :
    loadHistoricalFeatures (some (.error ()))
      ≠ .ok (([] : List (List ℚ)), ([] : List String)) := by
  simp [loadHistoricalFeatures]

/-- C3 (amended): a missing baseline file is treated as cold start (empty
history and empty name list), and a readable file yields its payload with
empty defaults; but an unreadable or corrupt baseline file raises, failing
the cycle. -/
theorem c3_load_baseline_behaviour :
    loadHistoricalFeatures none = .ok (([] : List (List ℚ)), ([] : List String)) ∧
    loadHistoricalFeatures (some (.error ())) = .error "json.JSONDecodeError" ∧
    ∀ p : BaselinePayload, loadHistoricalFeatures (some (.ok p))
      = .ok (p.vectors.getD [], p.featureNames.getD []) :=
  ⟨rfl, rfl, fun _ => rfl⟩

/-- C4: on a cold start the code does set flag `false`, signal `0` and
persists exactly the current vector as the whole history, but the claim
still fails twice over: the reason literal is capitalized
(`"Baseline established from first observation"`, not the claimed
`"baseline established from first observation"`), and `analyze_scan` then
raises `AttributeError` inside `build_insights` before yielding any
`AnalysisResult`.  This theorem evaluates the embedded `analyze_scan` at the
scenario observation on an empty baseline. -/
theorem c4_cold_start_crashes_before_result :
    analyzeScan id scenarioObservation none
      = (saveHistoricalFeatures [[1, 1, 1, 1, 22]] fixedFeatureNames,
         .error "AttributeError: object has no attribute values") ∧
    coldStartReason = "Baseline established from first observation" ∧
    coldStartReason ≠ "baseline established from first observation" := by
  refine ⟨?_, rfl, by decide⟩
  simp only [analyzeScan, scenarioObservation, extractFeatures, loadHistoricalFeatures,
    saveHistoricalFeatures, heuristicRisk, buildInsights, pyTruthyList, criticalPorts,
    fixedFeatureNames, listMean]
  norm_num

/-- C5: the heuristic risk equals
`high_risk * 2.5 + open_critical_ports * 1.5 + total_ports * 0.25
 + max 0 ((average_port - 1024) / 200)`, plus `min 4 (drift * 0.5)` when a
(non-empty) baseline mean exists — drift being the mean absolute difference
between the current vector and the baseline means — plus
`min 4 (z * 1.5)`, clamped to `[0, 10]`; and on the concrete scenario
(one ssh finding with a CVE on port 22, cold start) the features are
`(1, 1, 1, 1, 22)`, the risk is `4.25` and the severity is `medium`. -/
theorem c5_risk_formula_and_scenario :
    (∀ t u h c a z : ℚ,
      heuristicRisk [t, u, h, c, a] none z
        = .ok (max 0 (min 10 (h * 2.5 + c * 1.5 + t * 0.25
            + max 0 ((a - 1024) / 200) + min 4 (z * 1.5))))) ∧
    (∀ t u h c a z m1 m2 m3 m4 m5 : ℚ,
      heuristicRisk [t, u, h, c, a] (some [m1, m2, m3, m4, m5]) z
        = .ok (max 0 (min 10 (h * 2.5 + c * 1.5 + t * 0.25
            + max 0 ((a - 1024) / 200)
            + min 4 ((|t - m1| + |u - m2| + |h - m3| + |c - m4| + |a - m5|) / 5 * 0.5)
            + min 4 (z * 1.5))))) ∧
    extractFeatures scenarioObservation
      = { values := [1, 1, 1, 1, 22], featureNames := fixedFeatureNames } ∧
    heuristicRisk [1, 1, 1, 1, 22] none 0 = .ok (17 / 4) ∧
    severityFromScore (17 / 4) = "medium" := by
  refine ⟨fun t u h c a z => rfl, fun t u h c a z m1 m2 m3 m4 m5 => ?_,
    ?_, ?_, by norm_num [severityFromScore]⟩
  · simp only [heuristicRisk, pyTruthyList, List.zip, List.zipWith, List.map,
      List.sum_cons, List.sum_nil, List.length_cons, List.length_nil, if_true]
    ring_nf
  · simp only [extractFeatures, scenarioObservation, criticalPorts, fixedFeatureNames]
    norm_num
  · norm_num [heuristicRisk, pyTruthyList]

/-- C6: the per-dimension z-score is forced to `0` wherever the standard
deviation is `0` (never dividing), the deviation signal is the arithmetic
mean of the per-dimension z-scores, the anomaly flag of the warm branch
holds exactly when the signal exceeds `2.5`, and a single prior vector
yields an all-zero standard-deviation list (so its evaluation divides
nowhere). -/
theorem c6_z_score_guard_and_threshold :
    (∀ v mu : ℚ, zScoreOf v mu 0 = 0) ∧
    (∀ values means deviations : List ℚ, values ≠ [] →
      zScores values means deviations ≠ [] →
      avgZScore values means deviations
        = (zScores values means deviations).sum
            / ((zScores values means deviations).length : ℚ)) ∧
    (∀ z : ℚ, warmAnomalyFlag z = true ↔ z > 2.5) ∧
    (∀ (sqrtFn : ℚ → ℚ) (v : List ℚ),
      (computeBaselineStats sqrtFn [v]).2 = List.replicate v.length 0) := by
  refine ⟨fun v mu => by simp [zScoreOf], fun values means deviations h1 h2 => ?_,
    fun z => by simp [warmAnomalyFlag], fun sqrtFn v => ?_⟩
  · rw [avgZScore, if_neg h1, if_neg h2]
  · simp only [computeBaselineStats, pyZipStar, List.foldl_nil, List.map_map]
    rw [List.eq_replicate_iff]
    constructor
    · simp
    · intro b hb
      simp at hb
      obtain ⟨i, hi, rfl⟩ := hb
      simp

/-- C6 witness: the guard, mean, threshold and single-sample clauses
instantiated at concrete inputs. -/
theorem c6_witness :
    zScoreOf 1 1 0 = 0 ∧
    avgZScore [1, 2] [1, 1] [0, 2]
      = (zScores [1, 2] [1, 1] [0, 2]).sum
          / ((zScores [1, 2] [1, 1] [0, 2]).length : ℚ) ∧
    (warmAnomalyFlag 3 = true ↔ (3 : ℚ) > 2.5) ∧
    (computeBaselineStats id [[1, 2, 3]]).2 = List.replicate ([1, 2, 3] : List ℚ).length 0 :=
  ⟨c6_z_score_guard_and_threshold.1 1 1,
   c6_z_score_guard_and_threshold.2.1 [1, 2] [1, 1] [0, 2] (by decide) (by decide),
   c6_z_score_guard_and_threshold.2.2.1 3,
   c6_z_score_guard_and_threshold.2.2.2 id [1, 2, 3]⟩

/-- Appending distinct suffixes to the same string yields distinct strings
(used for the uniqueness of snapshot file names). -/
theorem append_ne_of_ne (s a b : String) (h : a ≠ b) : s ++ a ≠ s ++ b := by
  intro hc
  apply h
  have hd := congrArg String.data hc
  simp only [String.data_append] at hd
  exact String.ext (List.append_cancel_left hd)


/-- C7: the response gate runs exactly for severity medium/high/critical;
a low-severity alert leaves the response state untouched (no snapshot, no
`automation` audit entry); a triggered alert with a (truthy) related IP
invokes block-IP, send-email and create-ticket in that order, writing three
distinctly named snapshots and three `automation` audit entries with
matching action names; without a related IP, block-IP is a no-op and
exactly the email and ticket actions run. -/
theorem c7_response_gate :
    ∀ (now : Nat) (alert : AlertRecord) (st : RespState),
      (responseTriggered alert = true
         ↔ (alert.severity = "medium" ∨ alert.severity = "high"
              ∨ alert.severity = "critical")) ∧
      (alert.severity = "low" → responseGate now alert st = st) ∧
      (responseTriggered alert = true → pyTruthyStr alert.relatedIp = true →
        (responseGate now alert st).snapshots.map Prod.fst
          = st.snapshots.map Prod.fst
              ++ [alert.id ++ "_block.json", alert.id ++ "_email.json",
                  alert.id ++ "_ticket.json"] ∧
        ((responseGate now alert st).audit.getD []).length
          = (st.audit.getD []).length + 3 ∧
        automationActions ((responseGate now alert st).audit.getD [])
          = automationActions (st.audit.getD [])
              ++ ["block_ip", "send_email", "create_ticket"] ∧
        (alert.id ++ "_block.json" ≠ alert.id ++ "_email.json"
          ∧ alert.id ++ "_block.json" ≠ alert.id ++ "_ticket.json"
          ∧ alert.id ++ "_email.json" ≠ alert.id ++ "_ticket.json")) ∧
      (responseTriggered alert = true → pyTruthyStr alert.relatedIp = false →
        (responseGate now alert st).snapshots.map Prod.fst
          = st.snapshots.map Prod.fst
              ++ [alert.id ++ "_email.json", alert.id ++ "_ticket.json"] ∧
        ((responseGate now alert st).audit.getD []).length
          = (st.audit.getD []).length + 2 ∧
        automationActions ((responseGate now alert st).audit.getD [])
          = automationActions (st.audit.getD [])
              ++ ["send_email", "create_ticket"]) := by
  intro now alert st
  refine ⟨by simp [responseTriggered], ?_, ?_, ?_⟩
  · intro hlow
    simp [responseGate, responseTriggered, hlow]
  · intro htrig hip
    simp only [responseGate, htrig, if_true, createTicket, sendEmail, blockIp, hip,
      writeActionSnapshot, appendAuditEntry, automationActions, Option.getD_some,
      List.filterMap_append, List.map_append, List.length_append]
    refine ⟨?_, by simp, by simp,
      append_ne_of_ne _ _ _ (by decide), append_ne_of_ne _ _ _ (by decide),
      append_ne_of_ne _ _ _ (by decide)⟩
    simp only [List.map_cons, List.map_nil, String.append_assoc, List.append_assoc]
    rfl
  · intro htrig hip
    simp only [responseGate, htrig, if_true, createTicket, sendEmail, blockIp, hip,
      writeActionSnapshot, appendAuditEntry, automationActions, Option.getD_some,
      List.filterMap_append, List.map_append, List.length_append, Bool.false_eq_true,
      if_false]
    refine ⟨?_, by simp, by simp⟩
    simp only [List.map_cons, List.map_nil, String.append_assoc, List.append_assoc]
    rfl

/-- An empty response state. -/
def emptyRespState : RespState := { snapshots := [], audit := none }

/-- A concrete medium-severity alert with a related IP, for the response
gate witness. -/
def witnessAlert : AlertRecord :=
  { id := "a1", generatedAt := 0, severity := "medium",
    title := "Medium risk exposure detected", description := "",
    relatedIp := some "10.0.0.5", recommendedAction := none,
    analysis := scenarioAnalysis }

/-- C7 witness: the gate applied to a concrete triggered alert with a
related IP produces the three named snapshots and the three automation
audit entries. -/
theorem c7_response_gate_witness :
    (responseGate 0 witnessAlert emptyRespState).snapshots.map Prod.fst
      = [witnessAlert.id ++ "_block.json", witnessAlert.id ++ "_email.json",
         witnessAlert.id ++ "_ticket.json"] ∧
    automationActions ((responseGate 0 witnessAlert emptyRespState).audit.getD [])
      = ["block_ip", "send_email", "create_ticket"] := by
  have h := (c7_response_gate 0 witnessAlert emptyRespState).2.2.1 (by decide) (by decide)
  exact ⟨by simpa [emptyRespState] using h.1,
         by simpa [emptyRespState, automationActions] using h.2.2.1⟩

/-- Folding `append_audit_entry` over an existing log appends the serialized
entries in call order. -/
theorem foldl_appendAuditEntry (es : List AuditEntry) (lines : List AuditLine) :
    es.foldl appendAuditEntry (some lines) = some (lines ++ es.map AuditLine.entry) := by
  induction es generalizing lines with
  | nil => simp
  | cons e es ih => simp [appendAuditEntry, ih]


/-- C8: K appends on an initially absent audit log followed by `load()`
return exactly the K entries in call order; `load` handles every line
independently, keeping exactly the parsable ones (blank and malformed
lines are skipped, never failing the read); and `append` only ever extends
the log with one new line, leaving prior lines unchanged. -/
theorem c8_audit_append_load :
    (∀ es : List AuditEntry,
      loadAuditEntries none (es.foldl appendAuditEntry (none : AuditFile)) = es) ∧
    (∀ lines : List AuditLine,
      loadAuditEntries none (some lines) = lines.filterMap parseAuditLine) ∧
    (∀ (file : AuditFile) (e : AuditEntry),
      appendAuditEntry file e = some (file.getD [] ++ [AuditLine.entry e])) := by
  refine ⟨?_, fun lines => rfl, fun file e => rfl⟩
  intro es
  cases es with
  | nil => rfl
  | cons e es =>
      show loadAuditEntries none (es.foldl appendAuditEntry (appendAuditEntry none e)) = _
      rw [show appendAuditEntry none e = some [AuditLine.entry e] from rfl,
          foldl_appendAuditEntry]
      simp only [loadAuditEntries, applyAuditLimit, List.filterMap_cons, List.filterMap_map]
      have hcomp : parseAuditLine ∘ AuditLine.entry = some := by
        funext a
        rfl
      simp [hcomp, parseAuditLine]

/-- The extractor always yields exactly five feature values. -/
theorem extractFeatures_values_length (obs : ScanObservation) :
    (extractFeatures obs).values.length = 5 := rfl

/-- The extractor always yields the fixed dimension-name list. -/
theorem extractFeatures_names (obs : ScanObservation) :
    (extractFeatures obs).featureNames = fixedFeatureNames := rfl

/-- Whenever the baseline file loads (missing or readable), `analyze_scan`
persists the loaded history extended by the current feature vector together
with the extractor's names, and then fails with the `build_insights`
`AttributeError` before returning a result. -/
theorem analyzeScan_spec (sqrtFn : ℚ → ℚ) (obs : ScanObservation) (file : BaselineFile)
    (hist : List (List ℚ)) (names : List String)
    (h : loadHistoricalFeatures file = .ok (hist, names)) :
    analyzeScan sqrtFn obs file
      = (saveHistoricalFeatures (hist ++ [(extractFeatures obs).values])
           (extractFeatures obs).featureNames,
         .error "AttributeError: object has no attribute values") := by
  unfold analyzeScan
  rw [h]
  by_cases hh : hist = []
  · subst hh
    rfl
  · simp only [hh, if_false]
    rfl

/-- The vector history stored in a baseline file (empty when the file is
missing, corrupt, or lacks the key). -/
def storedVectors (file : BaselineFile) : List (List ℚ) :=
  match file with
  | some (.ok p) => p.vectors.getD []
  | _ => []

/-- The dimension-name list stored in a baseline file. -/
def storedNames (file : BaselineFile) : List String :=
  match file with
  | some (.ok p) => p.featureNames.getD []
  | _ => []

/-- `n` analysis cycles starting from an absent baseline file, feeding
observation `obss k` to cycle `k`; each cycle's persisted state feeds the
next. -/
def runCycles (sqrtFn : ℚ → ℚ) (obss : ℕ → ScanObservation) : ℕ → BaselineFile
  | 0 => none
  | n + 1 => (analyzeScan sqrtFn (obss n) (runCycles sqrtFn obss n)).1

/-- After each cycle the baseline file holds the previous history extended
by the current feature vector, under the fixed feature names. -/
theorem runCycles_shape (sqrtFn : ℚ → ℚ) (obss : ℕ → ScanObservation) :
    ∀ n : ℕ, runCycles sqrtFn obss (n + 1)
      = saveHistoricalFeatures
          (storedVectors (runCycles sqrtFn obss n)
             ++ [(extractFeatures (obss n)).values]) fixedFeatureNames := by
  intro n
  induction n with
  | zero =>
      show (analyzeScan sqrtFn (obss 0) none).1 = _
      rw [analyzeScan_spec sqrtFn (obss 0) none [] [] rfl]
      rfl
  | succ n ih =>
      show (analyzeScan sqrtFn (obss (n + 1)) (runCycles sqrtFn obss (n + 1))).1 = _
      rw [ih]
      rw [analyzeScan_spec sqrtFn (obss (n + 1))
        (saveHistoricalFeatures
          (storedVectors (runCycles sqrtFn obss n) ++ [(extractFeatures (obss n)).values])
          fixedFeatureNames)
        (storedVectors (runCycles sqrtFn obss n) ++ [(extractFeatures (obss n)).values])
        fixedFeatureNames rfl]
      rfl

/-- C9: starting from an empty baseline, each cycle appends exactly one
vector, so after `n + 1` cycles the persisted history has `n + 1` vectors;
every stored vector has the same length as the persisted dimension-name
list, and that list is the fixed extractor name list at every cycle, hence
never changes once non-empty. -/
theorem c9_baseline_growth :
    ∀ (sqrtFn : ℚ → ℚ) (obss : ℕ → ScanObservation) (n : ℕ),
      storedVectors (runCycles sqrtFn obss (n + 1))
        = storedVectors (runCycles sqrtFn obss n)
            ++ [(extractFeatures (obss n)).values] ∧
      (storedVectors (runCycles sqrtFn obss (n + 1))).length = n + 1 ∧
      storedNames (runCycles sqrtFn obss (n + 1)) = fixedFeatureNames ∧
      ∀ v ∈ storedVectors (runCycles sqrtFn obss (n + 1)),
        v.length = fixedFeatureNames.length := by
  intro sqrtFn obss n
  have hgrow : ∀ m : ℕ, storedVectors (runCycles sqrtFn obss (m + 1))
      = storedVectors (runCycles sqrtFn obss m)
          ++ [(extractFeatures (obss m)).values] := by
    intro m
    rw [runCycles_shape sqrtFn obss m]
    rfl
  have hlen : ∀ m : ℕ, (storedVectors (runCycles sqrtFn obss m)).length = m := by
    intro m
    induction m with
    | zero => rfl
    | succ m ih => rw [hgrow m]; simp [ih]
  have hmem : ∀ m : ℕ, ∀ v ∈ storedVectors (runCycles sqrtFn obss m),
      v.length = fixedFeatureNames.length := by
    intro m
    induction m with
    | zero => intro v hv; simp [storedVectors, runCycles] at hv
    | succ m ih =>
        intro v hv
        rw [hgrow m] at hv
        rcases List.mem_append.1 hv with h | h
        · exact ih v h
        · rw [List.mem_singleton.1 h]
          exact extractFeatures_values_length (obss m)
  refine ⟨hgrow n, hlen (n + 1), ?_, hmem (n + 1)⟩
  rw [runCycles_shape sqrtFn obss n]
  rfl

/-- C9 witness: one concrete cycle from the empty baseline. -/
theorem c9_baseline_growth_witness :
    storedVectors (runCycles id (fun _ => scenarioObservation) 1)
      = storedVectors (runCycles id (fun _ => scenarioObservation) 0)
          ++ [(extractFeatures scenarioObservation).values] ∧
    (storedVectors (runCycles id (fun _ => scenarioObservation) 1)).length = 1 ∧
    storedNames (runCycles id (fun _ => scenarioObservation) 1) = fixedFeatureNames :=
  ⟨(c9_baseline_growth id (fun _ => scenarioObservation) 0).1,
   (c9_baseline_growth id (fun _ => scenarioObservation) 0).2.1,
   (c9_baseline_growth id (fun _ => scenarioObservation) 0).2.2.1⟩

/-- C10: the updated history is persisted before risk and insights are
computed, so even though the analysis raises during insight construction,
the baseline file has already grown by the current vector: baseline growth
is not atomic with producing the `AnalysisResult`. -/
theorem c10_baseline_persisted_despite_error :
    ∀ (sqrtFn : ℚ → ℚ) (obs : ScanObservation) (file : BaselineFile)
      (hist : List (List ℚ)) (names : List String),
      loadHistoricalFeatures file = .ok (hist, names) →
      (analyzeScan sqrtFn obs file).2
          = .error "AttributeError: object has no attribute values" ∧
      storedVectors (analyzeScan sqrtFn obs file).1
          = hist ++ [(extractFeatures obs).values] := by
  intro sqrtFn obs file hist names h
  rw [analyzeScan_spec sqrtFn obs file hist names h]
  exact ⟨rfl, rfl⟩

/-- C10 witness: the scenario observation on a missing baseline file. -/
theorem c10_witness :
    (analyzeScan id scenarioObservation none).2
        = .error "AttributeError: object has no attribute values" ∧
    storedVectors (analyzeScan id scenarioObservation none).1
        = [] ++ [(extractFeatures scenarioObservation).values] :=
  c10_baseline_persisted_despite_error id scenarioObservation none [] [] rfl
